import Mathlib

/-!
Shallow embedding of `src/main.py` of the RAG-system-weather-spanish-cities
repository: a weather fetcher (`get_current_weather`), an ingestion workflow
(`fetch_and_store_weather_data`) that upserts (city, embedding, weather)
records into a vector store, and a query workflow (`query_weather`) that
answers a free-text prompt from the top-1 nearest-neighbor match.

External collaborators (the HTTP weather endpoint, the sentence-embedding
model and the vector store) are modelled as explicit oracle arguments and, for
the store's own upsert operation, from the contract stated in the spec.
Numeric payloads carried through unchanged are modelled as `Int`; similarity
scores and coordinates as `Rat`.
-/

namespace WeatherRag

/-- The nested current-weather object of a weather response body; each field
may be missing, as `dict.get` in the source returns null for missing keys. -/
structure CurrentWeather where
  temperature : Option Int
  windspeed : Option Int
  deriving DecidableEq, Repr

/-- An HTTP response of the weather endpoint: a status code and a JSON body
that may or may not carry a current-weather object. -/
structure WeatherResponse where
  status_code : Nat
  current_weather : Option CurrentWeather
  deriving DecidableEq, Repr

/-- The dict returned by `get_current_weather` on success: it always has the
two keys, each possibly bound to null. -/
structure WeatherInfo where
  temperature : Option Int
  wind_speed : Option Int
  deriving DecidableEq, Repr

/-- Embedding of `get_current_weather` (src/main.py lines 12-40). The HTTP GET
with the latitude/longitude params is an oracle `fetch`; `city_name` is
accepted exactly as in the source, which never uses it. On a 200 response the
body's current-weather object is read with an empty-dict default and its
`temperature` and `windspeed` keys are extracted; otherwise the result is
`none` (Python `None`). -/
def get_current_weather (city_name : String) (latitude longitude : Rat)
    (fetch : Rat → Rat → WeatherResponse) : Option WeatherInfo :=
  let response := fetch latitude longitude
  if response.status_code = 200 then
    let data := response.current_weather.getD ⟨none, none⟩
    some ⟨data.temperature, data.windspeed⟩
  else
    none

/-- A record of the vector store: id, embedding vector, weather metadata. -/
structure VSRecord where
  id : String
  values : List Rat
  metadata : WeatherInfo
  deriving DecidableEq, Repr

/-- Modelled from the spec: the Vector Store is external; its `upsert` is an
insert-or-update operation keyed by the record id — the record with a matching
id is overwritten, otherwise the record is appended. -/
def upsertRecord : List VSRecord → VSRecord → List VSRecord
  | [], r => [r]
  | s :: rest, r => if s.id = r.id then r :: rest else s :: upsertRecord rest r

/-- The record the store holds under a given id (the first one, when the store
is well-formed the only one). -/
def findById (store : List VSRecord) (i : String) : Option VSRecord :=
  store.find? (fun r => r.id == i)

/-- Number of records the store holds under a given id. -/
def countById (store : List VSRecord) (i : String) : Nat :=
  (store.filter (fun r => r.id == i)).length

/-- Embedding of the loop body of `fetch_and_store_weather_data`
(src/main.py lines 93-106): for the city at position `i`, fetch its weather;
on success record it in the result map and upsert
`{id := city, values := city_embeddings[i], metadata := weather_info}`
into the store; on failure skip the city. The returned dict in the source is
always a non-empty (hence truthy) two-key dict, so the truthiness test
`if weather_info:` holds exactly when the fetch did not return `None`. -/
def ingestLoop (fetch : Rat → Rat → WeatherResponse)
    (embs : List (List Rat)) :
    Nat → List (String × Rat × Rat) → List VSRecord →
      List (String × WeatherInfo) × List VSRecord
  | _, [], store => ([], store)
  | i, (city, lat, lon) :: rest, store =>
    match get_current_weather city lat lon fetch with
    | some weather_info =>
      let store1 := upsertRecord store ⟨city, embs.getD i [], weather_info⟩
      let res := ingestLoop fetch embs (i + 1) rest store1
      ((city, weather_info) :: res.1, res.2)
    | none => ingestLoop fetch embs (i + 1) rest store

/-- Embedding of `fetch_and_store_weather_data` (src/main.py lines 77-108).
`cities` is the insertion-ordered city dict (keys unique); `encode` is the
batch embedding call of the external model; `fetch` the HTTP oracle. Returns
the weather-data map together with the store after all upserts. -/
def fetch_and_store_weather_data (cities : List (String × Rat × Rat))
    (encode : List String → List (List Rat))
    (fetch : Rat → Rat → WeatherResponse)
    (store : List VSRecord) : List (String × WeatherInfo) × List VSRecord :=
  let city_names := cities.map (fun c => c.1)
  let city_embeddings := encode city_names
  ingestLoop fetch city_embeddings 0 cities store

/-- A match returned by the store's top-k query: id, similarity score,
metadata. -/
structure QueryMatch where
  id : String
  score : Rat
  metadata : WeatherInfo
  deriving DecidableEq, Repr

/-- How a metadata value prints inside the Python f-string: a number prints
itself, null prints as None. -/
def formatVal : Option Int → String
  | some n => toString n
  | none => "None"

/-- The fixed message of src/main.py line 133 for an empty match list. -/
def notFoundMsg : String :=
  "Sorry, I couldn\x27t find weather information for any city in your query."

/-- The low-confidence clarification message of src/main.py line 141. -/
def lowConfidenceMsg (city_name : String) : String :=
  "I found a possible match for \x27" ++ city_name ++
    "\x27, but I\x27m not very confident. Could you be more specific?"

/-- The formatted weather string of src/main.py line 146 (the source file
carries a mojibake byte pair before the C of the temperature unit, reproduced
here verbatim). -/
def weatherReport (city_name : String) (metadata : WeatherInfo) : String :=
  "Today\x27s weather in " ++ city_name ++ ":\n- Temperature: " ++
    formatVal metadata.temperature ++ "Â°C\n- Wind speed: " ++
    formatVal metadata.wind_speed ++ " km/h"

/-- Embedding of `query_weather` (src/main.py lines 111-146). `encode` is the
embedding model applied to the singleton list `[prompt]`; `queryTop1` is the
store's top-1 nearest-neighbor query (include_metadata) on the prompt vector.
An empty match list yields the fixed not-found message; a best match with
score below 0.3 yields the clarification message; otherwise the formatted
weather string. -/
def query_weather (prompt : String)
    (encode : List String → List (List Rat))
    (queryTop1 : List Rat → List QueryMatch) : String :=
  let prompt_embedding := encode [prompt]
  let query_results := queryTop1 (prompt_embedding.getD 0 [])
  match query_results with
  | [] => notFoundMsg
  | best_match :: _ =>
    if best_match.score < (3 : Rat) / 10 then
      lowConfidenceMsg best_match.id
    else
      weatherReport best_match.id best_match.metadata

/-- Boolean test that `pat` occurs at the start of `l`. -/
def strStartsAux : List Char → List Char → Bool
  | [], _ => true
  | _ :: _, [] => false
  | p :: ps, c :: cs => p == c && strStartsAux ps cs

/-- Boolean test that `pat` occurs somewhere in `l`. -/
def strHasSubAux (pat : List Char) : List Char → Bool
  | [] => strStartsAux pat []
  | c :: cs => strStartsAux pat (c :: cs) || strHasSubAux pat cs

/-- Boolean substring test on strings. -/
def strHasSub (s pat : String) : Bool :=
  strHasSubAux pat.toList s.toList

theorem findById_upsert_self (store : List VSRecord) (r : VSRecord) :
    findById (upsertRecord store r) r.id = some r := by
  induction store with
  | nil => simp [upsertRecord, findById]
  | cons s rest ih =>
    by_cases h : s.id = r.id
    · simp [upsertRecord, h, findById]
    · simpa [upsertRecord, h, findById] using ih

theorem findById_upsert_other (store : List VSRecord) (r : VSRecord) (j : String)
    (h : j ≠ r.id) : findById (upsertRecord store r) j = findById store j := by
  have hrj : (r.id == j) = false := beq_eq_false_iff_ne.mpr (Ne.symm h)
  induction store with
  | nil => simp [upsertRecord, findById, hrj]
  | cons s rest ih =>
    by_cases hs : s.id = r.id
    · have hsj : (s.id == j) = false := by rw [hs]; exact hrj
      simp [upsertRecord, hs, findById, hrj, hsj]
    · by_cases hj : s.id = j
      · have hsj : (s.id == j) = true := beq_iff_eq.mpr hj
        simp [upsertRecord, hs, findById, hsj]
      · have hsj : (s.id == j) = false := beq_eq_false_iff_ne.mpr hj
        simpa [upsertRecord, hs, findById, hsj] using ih

theorem filter_upsert_other (store : List VSRecord) (r : VSRecord) (j : String)
    (h : j ≠ r.id) :
    (upsertRecord store r).filter (fun x => x.id == j) =
      store.filter (fun x => x.id == j) := by
  have hrj : (r.id == j) = false := beq_eq_false_iff_ne.mpr (Ne.symm h)
  induction store with
  | nil => simp [upsertRecord, hrj]
  | cons s rest ih =>
    by_cases hs : s.id = r.id
    · have hsj : (s.id == j) = false := by rw [hs]; exact hrj
      simp [upsertRecord, hs, hrj, hsj]
    · by_cases hj : s.id = j
      · have hsj : (s.id == j) = true := beq_iff_eq.mpr hj
        simpa [upsertRecord, hs, hsj] using ih
      · have hsj : (s.id == j) = false := beq_eq_false_iff_ne.mpr hj
        simpa [upsertRecord, hs, hsj] using ih

theorem filter_upsert_self (store : List VSRecord) (r : VSRecord)
    (h : countById store r.id ≤ 1) :
    (upsertRecord store r).filter (fun x => x.id == r.id) = [r] := by
  induction store with
  | nil => simp [upsertRecord]
  | cons s rest ih =>
    by_cases hs : s.id = r.id
    · have hrest : rest.filter (fun x => x.id == r.id) = [] := by
        have : (1 + (rest.filter (fun x => x.id == r.id)).length) ≤ 1 := by
          simpa [countById, hs, Nat.add_comm] using h
        have hlen : (rest.filter (fun x => x.id == r.id)).length = 0 := by omega
        exact List.length_eq_zero.mp hlen
      simp [upsertRecord, hs, hrest]
    · have hcount : countById rest r.id ≤ 1 := by
        simpa [countById, hs] using h
      simpa [upsertRecord, hs] using ih hcount

theorem ingestLoop_findById_not_mem (fetch : Rat → Rat → WeatherResponse)
    (embs : List (List Rat)) (city : String) :
    ∀ (i : Nat) (cities : List (String × Rat × Rat)) (store : List VSRecord),
      city ∉ cities.map (fun c => c.1) →
      findById (ingestLoop fetch embs i cities store).2 city =
        findById store city := by
  intro i cities
  induction cities generalizing i with
  | nil => intro store _; rfl
  | cons c rest ih =>
    intro store h
    obtain ⟨c0, lat0, lon0⟩ := c
    simp only [List.map_cons, List.mem_cons, not_or] at h
    obtain ⟨h1, h2⟩ := h
    cases hw : get_current_weather c0 lat0 lon0 fetch with
    | none => simpa only [ingestLoop, hw] using ih (i + 1) _ h2
    | some wi =>
      simp only [ingestLoop, hw]
      rw [ih (i + 1) _ h2, findById_upsert_other _ _ _ h1]

theorem ingestLoop_filter_not_mem (fetch : Rat → Rat → WeatherResponse)
    (embs : List (List Rat)) (city : String) :
    ∀ (i : Nat) (cities : List (String × Rat × Rat)) (store : List VSRecord),
      city ∉ cities.map (fun c => c.1) →
      (ingestLoop fetch embs i cities store).2.filter (fun x => x.id == city) =
        store.filter (fun x => x.id == city) := by
  intro i cities
  induction cities generalizing i with
  | nil => intro store _; rfl
  | cons c rest ih =>
    intro store h
    obtain ⟨c0, lat0, lon0⟩ := c
    simp only [List.map_cons, List.mem_cons, not_or] at h
    obtain ⟨h1, h2⟩ := h
    cases hw : get_current_weather c0 lat0 lon0 fetch with
    | none => simpa only [ingestLoop, hw] using ih (i + 1) _ h2
    | some wi =>
      simp only [ingestLoop, hw]
      rw [ih (i + 1) _ h2, filter_upsert_other _ _ _ h1]

theorem ingestLoop_lookup_not_mem (fetch : Rat → Rat → WeatherResponse)
    (embs : List (List Rat)) (city : String) :
    ∀ (i : Nat) (cities : List (String × Rat × Rat)) (store : List VSRecord),
      city ∉ cities.map (fun c => c.1) →
      List.lookup city (ingestLoop fetch embs i cities store).1 = none := by
  intro i cities
  induction cities generalizing i with
  | nil => intro store _; rfl
  | cons c rest ih =>
    intro store h
    obtain ⟨c0, lat0, lon0⟩ := c
    simp only [List.map_cons, List.mem_cons, not_or] at h
    obtain ⟨h1, h2⟩ := h
    cases hw : get_current_weather c0 lat0 lon0 fetch with
    | none => simpa only [ingestLoop, hw] using ih (i + 1) _ h2
    | some wi =>
      have hb : (city == c0) = false := beq_eq_false_iff_ne.mpr h1
      simp only [ingestLoop, hw]
      simpa [List.lookup, hb] using ih (i + 1) _ h2

theorem countById_upsert_other (store : List VSRecord) (r : VSRecord) (j : String)
    (h : j ≠ r.id) : countById (upsertRecord store r) j = countById store j := by
  simp [countById, filter_upsert_other store r j h]

theorem mem_of_index {α : Type} {l : List α} {k : Nat} {a : α}
    (h : l[k]? = some a) : a ∈ l := by
  obtain ⟨hlt, he⟩ := List.getElem?_eq_some.mp h
  exact he ▸ List.getElem_mem hlt

theorem ingestLoop_success (fetch : Rat → Rat → WeatherResponse)
    (embs : List (List Rat)) :
    ∀ (i : Nat) (cities : List (String × Rat × Rat)) (store : List VSRecord)
      (k : Nat) (city : String) (lat lon : Rat) (wi : WeatherInfo),
      (cities.map (fun c => c.1)).Nodup →
      cities[k]? = some (city, lat, lon) →
      get_current_weather city lat lon fetch = some wi →
      List.lookup city (ingestLoop fetch embs i cities store).1 = some wi ∧
      findById (ingestLoop fetch embs i cities store).2 city =
        some ⟨city, embs.getD (i + k) [], wi⟩ := by
  intro i cities
  induction cities generalizing i with
  | nil => intro store k city lat lon wi hnd hk hw; simp at hk
  | cons c rest ih =>
    intro store k city lat lon wi hnd hk hw
    obtain ⟨c0, lat0, lon0⟩ := c
    rw [List.map_cons, List.nodup_cons] at hnd
    obtain ⟨hnotin, hnd'⟩ := hnd
    cases k with
    | zero =>
      simp only [List.getElem?_cons_zero, Option.some.injEq, Prod.mk.injEq] at hk
      obtain ⟨rfl, rfl, rfl⟩ := hk
      simp only [ingestLoop, hw]
      refine ⟨by simp [List.lookup], ?_⟩
      rw [ingestLoop_findById_not_mem fetch embs _ (i + 1) rest _ hnotin]
      rw [Nat.add_zero]
      exact findById_upsert_self store ⟨c0, embs.getD i [], wi⟩
    | succ k' =>
      rw [List.getElem?_cons_succ] at hk
      have hcm : city ∈ rest.map (fun c => c.1) :=
        List.mem_map_of_mem _ (mem_of_index hk)
      have hne : city ≠ c0 := fun he => hnotin (he ▸ hcm)
      have harith : i + (k' + 1) = (i + 1) + k' := by omega
      cases hw0 : get_current_weather c0 lat0 lon0 fetch with
      | none =>
        simp only [ingestLoop, hw0]
        rw [harith]
        exact ih (i + 1) store k' city lat lon wi hnd' hk hw
      | some wi0 =>
        have hb : (city == c0) = false := beq_eq_false_iff_ne.mpr hne
        simp only [ingestLoop, hw0]
        have hih := ih (i + 1) (upsertRecord store ⟨c0, embs.getD i [], wi0⟩)
          k' city lat lon wi hnd' hk hw
        rw [harith]
        exact ⟨by simpa [List.lookup, hb] using hih.1, hih.2⟩

theorem ingestLoop_filter_success (fetch : Rat → Rat → WeatherResponse)
    (embs : List (List Rat)) :
    ∀ (i : Nat) (cities : List (String × Rat × Rat)) (store : List VSRecord)
      (k : Nat) (city : String) (lat lon : Rat) (wi : WeatherInfo),
      (cities.map (fun c => c.1)).Nodup →
      cities[k]? = some (city, lat, lon) →
      get_current_weather city lat lon fetch = some wi →
      countById store city ≤ 1 →
      (ingestLoop fetch embs i cities store).2.filter (fun x => x.id == city) =
        [⟨city, embs.getD (i + k) [], wi⟩] := by
  intro i cities
  induction cities generalizing i with
  | nil => intro store k city lat lon wi hnd hk hw hc; simp at hk
  | cons c rest ih =>
    intro store k city lat lon wi hnd hk hw hc
    obtain ⟨c0, lat0, lon0⟩ := c
    rw [List.map_cons, List.nodup_cons] at hnd
    obtain ⟨hnotin, hnd'⟩ := hnd
    cases k with
    | zero =>
      simp only [List.getElem?_cons_zero, Option.some.injEq, Prod.mk.injEq] at hk
      obtain ⟨rfl, rfl, rfl⟩ := hk
      simp only [ingestLoop, hw]
      rw [ingestLoop_filter_not_mem fetch embs _ (i + 1) rest _ hnotin]
      rw [Nat.add_zero]
      exact filter_upsert_self store ⟨c0, embs.getD i [], wi⟩ hc
    | succ k' =>
      rw [List.getElem?_cons_succ] at hk
      have hcm : city ∈ rest.map (fun c => c.1) :=
        List.mem_map_of_mem _ (mem_of_index hk)
      have hne : city ≠ c0 := fun he => hnotin (he ▸ hcm)
      have harith : i + (k' + 1) = (i + 1) + k' := by omega
      cases hw0 : get_current_weather c0 lat0 lon0 fetch with
      | none =>
        simp only [ingestLoop, hw0]
        rw [harith]
        exact ih (i + 1) store k' city lat lon wi hnd' hk hw hc
      | some wi0 =>
        simp only [ingestLoop, hw0]
        have hc1 : countById (upsertRecord store ⟨c0, embs.getD i [], wi0⟩) city ≤ 1 := by
          rw [countById_upsert_other store _ _ hne]
          exact hc
        rw [harith]
        exact ih (i + 1) (upsertRecord store ⟨c0, embs.getD i [], wi0⟩)
          k' city lat lon wi hnd' hk hw hc1

theorem ingestLoop_failed (fetch : Rat → Rat → WeatherResponse)
    (embs : List (List Rat)) :
    ∀ (i : Nat) (cities : List (String × Rat × Rat)) (store : List VSRecord)
      (city : String) (lat lon : Rat),
      (cities.map (fun c => c.1)).Nodup →
      (city, lat, lon) ∈ cities →
      get_current_weather city lat lon fetch = none →
      List.lookup city (ingestLoop fetch embs i cities store).1 = none ∧
      (ingestLoop fetch embs i cities store).2.filter (fun x => x.id == city) =
        store.filter (fun x => x.id == city) := by
  intro i cities
  induction cities generalizing i with
  | nil => intro store city lat lon hnd hmem hw; simp at hmem
  | cons c rest ih =>
    intro store city lat lon hnd hmem hw
    obtain ⟨c0, lat0, lon0⟩ := c
    rw [List.map_cons, List.nodup_cons] at hnd
    obtain ⟨hnotin, hnd'⟩ := hnd
    rcases List.mem_cons.mp hmem with heq | hrest
    · simp only [Prod.mk.injEq] at heq
      obtain ⟨rfl, rfl, rfl⟩ := heq
      simp only [ingestLoop, hw]
      exact ⟨ingestLoop_lookup_not_mem fetch embs _ (i + 1) rest store hnotin,
        ingestLoop_filter_not_mem fetch embs _ (i + 1) rest store hnotin⟩
    · have hcm : city ∈ rest.map (fun c => c.1) := List.mem_map_of_mem _ hrest
      have hne : city ≠ c0 := fun he => hnotin (he ▸ hcm)
      cases hw0 : get_current_weather c0 lat0 lon0 fetch with
      | none =>
        simp only [ingestLoop, hw0]
        exact ih (i + 1) store city lat lon hnd' hrest hw
      | some wi0 =>
        have hb : (city == c0) = false := beq_eq_false_iff_ne.mpr hne
        simp only [ingestLoop, hw0]
        have hih := ih (i + 1) (upsertRecord store ⟨c0, embs.getD i [], wi0⟩)
          city lat lon hnd' hrest hw
        refine ⟨by simpa [List.lookup, hb] using hih.1, ?_⟩
        rw [hih.2, filter_upsert_other store _ _ hne]

theorem strStartsAux_self_append (p t : List Char) :
    strStartsAux p (p ++ t) = true := by
  induction p with
  | nil => rfl
  | cons c cs ih => simp [strStartsAux, ih]

theorem strHasSubAux_append_left (pat pre l : List Char)
    (h : strHasSubAux pat l = true) : strHasSubAux pat (pre ++ l) = true := by
  induction pre with
  | nil => simpa using h
  | cons c cs ih => simp [strHasSubAux, ih]

theorem strHasSubAux_self_append (pat suf : List Char) :
    strHasSubAux pat (pat ++ suf) = true := by
  cases pat with
  | nil => cases suf <;> simp [strHasSubAux, strStartsAux]
  | cons p ps => simp [strHasSubAux, strStartsAux, strStartsAux_self_append]

theorem strHasSub_head (pat suf : String) :
    strHasSub (pat ++ suf) pat = true := by
  rw [strHasSub]
  simp only [String.toList, String.data_append]
  exact strHasSubAux_self_append _ _

theorem strHasSub_mono (x s pat : String) (h : strHasSub s pat = true) :
    strHasSub (x ++ s) pat = true := by
  rw [strHasSub]
  simp only [String.toList, String.data_append]
  exact strHasSubAux_append_left _ _ _ h

theorem lowConfidenceMsg_hasSub_city (c : String) :
    strHasSub (lowConfidenceMsg c) c = true := by
  unfold lowConfidenceMsg
  rw [String.append_assoc]
  exact strHasSub_mono _ _ _ (strHasSub_head _ _)

theorem weatherReport_hasSub_city (c : String) (md : WeatherInfo) :
    strHasSub (weatherReport c md) c = true := by
  unfold weatherReport
  simp only [String.append_assoc]
  exact strHasSub_mono _ _ _ (strHasSub_head _ _)

theorem weatherReport_hasSub_temperature (c : String) (md : WeatherInfo) :
    strHasSub (weatherReport c md) (formatVal md.temperature) = true := by
  unfold weatherReport
  simp only [String.append_assoc]
  exact strHasSub_mono _ _ _ (strHasSub_mono _ _ _ (strHasSub_mono _ _ _
    (strHasSub_head _ _)))

theorem weatherReport_hasSub_wind (c : String) (md : WeatherInfo) :
    strHasSub (weatherReport c md) (formatVal md.wind_speed) = true := by
  unfold weatherReport
  simp only [String.append_assoc]
  exact strHasSub_mono _ _ _ (strHasSub_mono _ _ _ (strHasSub_mono _ _ _
    (strHasSub_mono _ _ _ (strHasSub_mono _ _ _ (strHasSub_head _ _)))))

/-- C5: `get_current_weather` returns an absent result on any non-200
response (and, being a total function, raises nothing there), and on a 200
response returns a record whose temperature and wind_speed are read from the
nested current-weather object of the body, each missing field defaulting to
null. -/
theorem C5_get_current_weather_status (city : String) (lat lon : Rat)
    (fetch : Rat → Rat → WeatherResponse) :
    ((fetch lat lon).status_code ≠ 200 →
      get_current_weather city lat lon fetch = none) ∧
    ((fetch lat lon).status_code = 200 →
      get_current_weather city lat lon fetch =
        some ⟨((fetch lat lon).current_weather.getD ⟨none, none⟩).temperature,
          ((fetch lat lon).current_weather.getD ⟨none, none⟩).windspeed⟩) := by
  constructor <;> intro h <;> simp [get_current_weather, h]

/-- C5 witness: a 404 response yields `none`; a 200 response with temperature
15 and a missing windspeed field yields the record with a null wind speed. -/
theorem C5_witness :
    get_current_weather "Madrid" 40 (-3) (fun _ _ => ⟨404, none⟩) = none ∧
    get_current_weather "Madrid" 40 (-3)
      (fun _ _ => ⟨200, some ⟨some 15, none⟩⟩) = some ⟨some 15, none⟩ := by
  constructor
  · exact (C5_get_current_weather_status "Madrid" 40 (-3)
      (fun _ _ => ⟨404, none⟩)).1 (by decide)
  · exact (C5_get_current_weather_status "Madrid" 40 (-3)
      (fun _ _ => ⟨200, some ⟨some 15, none⟩⟩)).2 rfl

/-- C9: the result of `get_current_weather` does not depend on its
`city_name` argument — two calls differing only in the city name agree for
every coordinate pair and every response of the weather endpoint. -/
theorem C9_city_name_unused (c1 c2 : String) (lat lon : Rat)
    (fetch : Rat → Rat → WeatherResponse) :
    get_current_weather c1 lat lon fetch =
      get_current_weather c2 lat lon fetch :=
  rfl

/-- C4: whenever the top-1 nearest-neighbor query returns an empty match
list (in particular on an empty store), `query_weather` returns the fixed
not-found message verbatim, with no exception and no other output. -/
theorem C4_empty_matches (prompt : String)
    (encode : List String → List (List Rat))
    (queryTop1 : List Rat → List QueryMatch)
    (h : queryTop1 ((encode [prompt]).getD 0 []) = []) :
    query_weather prompt encode queryTop1 =
      "Sorry, I couldn\x27t find weather information for any city in your query." := by
  simp only [List.getD_eq_getElem?_getD] at h
  simp [query_weather, h, notFoundMsg]

/-- C4 witness: a store stub whose query returns no matches. -/
theorem C4_witness :
    query_weather "weather in Paris" (fun ts => ts.map (fun _ => [1]))
      (fun _ => []) =
      "Sorry, I couldn\x27t find weather information for any city in your query." :=
  C4_empty_matches _ _ _ rfl

/-- C3: when the top-1 query returns a best match, a similarity score below
0.3 yields the low-confidence clarification message naming the matched city,
and a score at or above 0.3 yields the formatted weather string, which
contains the matched city's name, its temperature and its wind speed. -/
theorem C3_threshold (prompt : String)
    (encode : List String → List (List Rat))
    (queryTop1 : List Rat → List QueryMatch)
    (m : QueryMatch) (rest : List QueryMatch)
    (h : queryTop1 ((encode [prompt]).getD 0 []) = m :: rest) :
    (m.score < 3 / 10 →
      query_weather prompt encode queryTop1 = lowConfidenceMsg m.id ∧
      strHasSub (query_weather prompt encode queryTop1) m.id = true) ∧
    (3 / 10 ≤ m.score →
      query_weather prompt encode queryTop1 = weatherReport m.id m.metadata ∧
      strHasSub (query_weather prompt encode queryTop1) m.id = true ∧
      strHasSub (query_weather prompt encode queryTop1)
        (formatVal m.metadata.temperature) = true ∧
      strHasSub (query_weather prompt encode queryTop1)
        (formatVal m.metadata.wind_speed) = true) := by
  have hq : query_weather prompt encode queryTop1 =
      if m.score < (3 : Rat) / 10 then lowConfidenceMsg m.id
      else weatherReport m.id m.metadata := by
    simp only [List.getD_eq_getElem?_getD] at h
    simp [query_weather, h]
  constructor
  · intro hs
    rw [hq, if_pos hs]
    exact ⟨rfl, lowConfidenceMsg_hasSub_city m.id⟩
  · intro hs
    rw [hq, if_neg (not_lt.mpr hs)]
    exact ⟨rfl, weatherReport_hasSub_city _ _,
      weatherReport_hasSub_temperature _ _, weatherReport_hasSub_wind _ _⟩

/-- C3 witness: a simulated best match with score 0.29 yields the
clarification message naming the city; with score 0.31 the formatted weather
string. -/
theorem C3_witness :
    (query_weather "weather in Madrid" (fun ts => ts.map (fun _ => [1]))
      (fun _ => [⟨"Madrid", 29 / 100, ⟨some 15, some 10⟩⟩]) =
        lowConfidenceMsg "Madrid") ∧
    (query_weather "weather in Madrid" (fun ts => ts.map (fun _ => [1]))
      (fun _ => [⟨"Madrid", 31 / 100, ⟨some 15, some 10⟩⟩]) =
        weatherReport "Madrid" ⟨some 15, some 10⟩) := by
  constructor
  · exact ((C3_threshold "weather in Madrid" (fun ts => ts.map (fun _ => [1]))
      (fun _ => [⟨"Madrid", 29 / 100, ⟨some 15, some 10⟩⟩]) _ _ rfl).1
      (by norm_num)).1
  · exact ((C3_threshold "weather in Madrid" (fun ts => ts.map (fun _ => [1]))
      (fun _ => [⟨"Madrid", 31 / 100, ⟨some 15, some 10⟩⟩]) _ _ rfl).2
      (by norm_num)).1

/-- C1: for every city mapping with unique names and every city whose weather
fetch succeeds, the ingestion result map binds exactly that city to the
fetched weather snapshot, and the store afterwards holds a record whose id is
the city name and whose metadata equals that snapshot. -/
theorem C1_ingest_success (cities : List (String × Rat × Rat))
    (encode : List String → List (List Rat))
    (fetch : Rat → Rat → WeatherResponse) (store : List VSRecord)
    (city : String) (lat lon : Rat) (wi : WeatherInfo)
    (hnd : (cities.map (fun c => c.1)).Nodup)
    (hmem : (city, lat, lon) ∈ cities)
    (hw : get_current_weather city lat lon fetch = some wi) :
    List.lookup city
      (fetch_and_store_weather_data cities encode fetch store).1 = some wi ∧
    ∃ r, findById
      (fetch_and_store_weather_data cities encode fetch store).2 city = some r ∧
      r.id = city ∧ r.metadata = wi := by
  obtain ⟨k, hk⟩ := List.getElem?_of_mem hmem
  have h := ingestLoop_success fetch (encode (cities.map (fun c => c.1)))
    0 cities store k city lat lon wi hnd hk hw
  exact ⟨h.1, ⟨_, h.2, rfl, rfl⟩⟩

/-- C1 witness: a one-city mapping with a 200 fetch of temperature 15 and
wind speed 10. -/
theorem C1_witness :
    List.lookup "Madrid"
      (fetch_and_store_weather_data [("Madrid", 40, -3)]
        (fun ts => ts.map (fun _ => [1]))
        (fun _ _ => ⟨200, some ⟨some 15, some 10⟩⟩) []).1 =
      some ⟨some 15, some 10⟩ ∧
    ∃ r, findById
      (fetch_and_store_weather_data [("Madrid", 40, -3)]
        (fun ts => ts.map (fun _ => [1]))
        (fun _ _ => ⟨200, some ⟨some 15, some 10⟩⟩) []).2 "Madrid" = some r ∧
      r.id = "Madrid" ∧ r.metadata = ⟨some 15, some 10⟩ :=
  C1_ingest_success [("Madrid", 40, -3)] (fun ts => ts.map (fun _ => [1]))
    (fun _ _ => ⟨200, some ⟨some 15, some 10⟩⟩) [] "Madrid" 40 (-3)
    ⟨some 15, some 10⟩ (by simp) (by simp) rfl

/-- C2: a city whose weather fetch fails (non-200 response, so the fetcher
returns absent) is absent from the ingestion result map, and no upsert for it
is issued — the store's records under that city id are unchanged; the
workflow, a total function, raises no error for the partial failure. -/
theorem C2_ingest_failure (cities : List (String × Rat × Rat))
    (encode : List String → List (List Rat))
    (fetch : Rat → Rat → WeatherResponse) (store : List VSRecord)
    (city : String) (lat lon : Rat)
    (hnd : (cities.map (fun c => c.1)).Nodup)
    (hmem : (city, lat, lon) ∈ cities)
    (hw : get_current_weather city lat lon fetch = none) :
    List.lookup city
      (fetch_and_store_weather_data cities encode fetch store).1 = none ∧
    (fetch_and_store_weather_data cities encode fetch store).2.filter
        (fun x => x.id == city) =
      store.filter (fun x => x.id == city) := by
  have h := ingestLoop_failed fetch (encode (cities.map (fun c => c.1)))
    0 cities store city lat lon hnd hmem hw
  exact h

/-- C2 witness: a one-city mapping whose fetch answers 404. -/
theorem C2_witness :
    List.lookup "Madrid"
      (fetch_and_store_weather_data [("Madrid", 40, -3)]
        (fun ts => ts.map (fun _ => [1])) (fun _ _ => ⟨404, none⟩) []).1 =
      none ∧
    (fetch_and_store_weather_data [("Madrid", 40, -3)]
        (fun ts => ts.map (fun _ => [1])) (fun _ _ => ⟨404, none⟩) []).2.filter
        (fun x => x.id == "Madrid") =
      List.filter (fun x => x.id == "Madrid") [] :=
  C2_ingest_failure [("Madrid", 40, -3)] (fun ts => ts.map (fun _ => [1]))
    (fun _ _ => ⟨404, none⟩) [] "Madrid" 40 (-3) (by simp) (by simp) rfl

/-- C6: under the embedding provider's contract — the batch call is
order-preserving, returning one vector per input string, i.e.
`encode ts = ts.map f` for a per-string embedding `f` — the vector upserted
for the city at position `k` of the mapping is exactly the embedding of that
city's own name, and the batch call is observationally equivalent to the
per-name call `encode [city]`. -/
theorem C6_batch_embedding (cities : List (String × Rat × Rat))
    (encode : List String → List (List Rat)) (f : String → List Rat)
    (fetch : Rat → Rat → WeatherResponse) (store : List VSRecord)
    (k : Nat) (city : String) (lat lon : Rat) (wi : WeatherInfo)
    (henc : ∀ ts, encode ts = ts.map f)
    (hnd : (cities.map (fun c => c.1)).Nodup)
    (hk : cities[k]? = some (city, lat, lon))
    (hw : get_current_weather city lat lon fetch = some wi) :
    findById
      (fetch_and_store_weather_data cities encode fetch store).2 city =
      some ⟨city, f city, wi⟩ ∧
    encode [city] = [f city] := by
  have h := ingestLoop_success fetch (encode (cities.map (fun c => c.1)))
    0 cities store k city lat lon wi hnd hk hw
  have hk1 : (cities.map (fun c => c.1))[k]? = some city := by
    rw [List.getElem?_map, hk]
    rfl
  have hvec : (encode (cities.map (fun c => c.1))).getD (0 + k) [] = f city := by
    have hk2 : ((cities.map (fun c => c.1)).map f)[k]? = some (f city) := by
      rw [List.getElem?_map, hk1]
      rfl
    rw [henc, List.getD_eq_getElem?_getD, Nat.zero_add, hk2]
    rfl
  refine ⟨?_, by rw [henc]; rfl⟩
  rw [← hvec]
  exact h.2

/-- C6 witness: two cities, each name embedded to its own distinct one-entry
vector; the record stored for the second city carries the embedding of its
own name. -/
theorem C6_witness :
    findById
      (fetch_and_store_weather_data
        [("Madrid", 40, -3), ("Barcelona", 41, 2)]
        (fun ts => ts.map (fun s => if s = "Madrid" then [(1 : Rat)] else [2]))
        (fun _ _ => ⟨200, some ⟨some 15, some 10⟩⟩) []).2 "Barcelona" =
      some ⟨"Barcelona", [(2 : Rat)], ⟨some 15, some 10⟩⟩ ∧
    (fun ts => ts.map (fun s => if s = "Madrid" then [(1 : Rat)] else [2]))
      ["Barcelona"] = [[(2 : Rat)]] := by
  have h := C6_batch_embedding
    [("Madrid", 40, -3), ("Barcelona", 41, 2)]
    (fun ts => ts.map (fun s => if s = "Madrid" then [(1 : Rat)] else [2]))
    (fun s => if s = "Madrid" then [(1 : Rat)] else [2])
    (fun _ _ => ⟨200, some ⟨some 15, some 10⟩⟩) [] 1 "Barcelona" 41 2
    ⟨some 15, some 10⟩ (fun ts => rfl) (by simp) rfl rfl
  exact ⟨h.1, h.2⟩

/-- C7: re-ingesting a city overwrites rather than duplicates: after two
ingestion runs that both fetch the city successfully, a store that began with
at most one record under that name holds exactly one, carrying the metadata
of the later run. -/
theorem C7_reingest_overwrites
    (cities1 cities2 : List (String × Rat × Rat))
    (encode1 encode2 : List String → List (List Rat))
    (fetch1 fetch2 : Rat → Rat → WeatherResponse) (store : List VSRecord)
    (city : String) (lat1 lon1 lat2 lon2 : Rat) (wi1 wi2 : WeatherInfo)
    (k1 k2 : Nat)
    (hnd1 : (cities1.map (fun c => c.1)).Nodup)
    (hnd2 : (cities2.map (fun c => c.1)).Nodup)
    (hk1 : cities1[k1]? = some (city, lat1, lon1))
    (hk2 : cities2[k2]? = some (city, lat2, lon2))
    (hw1 : get_current_weather city lat1 lon1 fetch1 = some wi1)
    (hw2 : get_current_weather city lat2 lon2 fetch2 = some wi2)
    (hc : countById store city ≤ 1) :
    countById
      (fetch_and_store_weather_data cities2 encode2 fetch2
        (fetch_and_store_weather_data cities1 encode1 fetch1 store).2).2
      city = 1 ∧
    (findById
      (fetch_and_store_weather_data cities2 encode2 fetch2
        (fetch_and_store_weather_data cities1 encode1 fetch1 store).2).2
      city).map (fun r => r.metadata) = some wi2 := by
  have h1 := ingestLoop_filter_success fetch1
    (encode1 (cities1.map (fun c => c.1))) 0 cities1 store
    k1 city lat1 lon1 wi1 hnd1 hk1 hw1 hc
  have hc1 : countById
      (fetch_and_store_weather_data cities1 encode1 fetch1 store).2 city ≤ 1 := by
    show countById
      (ingestLoop fetch1 (encode1 (cities1.map (fun c => c.1))) 0 cities1 store).2
      city ≤ 1
    rw [countById, h1]
    exact Nat.le_refl 1
  have h2 := ingestLoop_filter_success fetch2
    (encode2 (cities2.map (fun c => c.1))) 0 cities2
    (fetch_and_store_weather_data cities1 encode1 fetch1 store).2
    k2 city lat2 lon2 wi2 hnd2 hk2 hw2 hc1
  have h3 := ingestLoop_success fetch2
    (encode2 (cities2.map (fun c => c.1))) 0 cities2
    (fetch_and_store_weather_data cities1 encode1 fetch1 store).2
    k2 city lat2 lon2 wi2 hnd2 hk2 hw2
  constructor
  · show countById
      (ingestLoop fetch2 (encode2 (cities2.map (fun c => c.1))) 0 cities2
        (fetch_and_store_weather_data cities1 encode1 fetch1 store).2).2
      city = 1
    rw [countById, h2]
    rfl
  · show (findById
      (ingestLoop fetch2 (encode2 (cities2.map (fun c => c.1))) 0 cities2
        (fetch_and_store_weather_data cities1 encode1 fetch1 store).2).2
      city).map (fun r => r.metadata) = some wi2
    rw [h3.2]
    rfl

/-- C7 witness: Madrid ingested twice into an initially empty store, first
with temperature 15, then with temperature 20; one record remains, carrying
the later metadata. -/
theorem C7_witness :
    countById
      (fetch_and_store_weather_data [("Madrid", 40, -3)]
        (fun ts => ts.map (fun _ => [1])) (fun _ _ => ⟨200, some ⟨some 20, some 5⟩⟩)
        (fetch_and_store_weather_data [("Madrid", 40, -3)]
          (fun ts => ts.map (fun _ => [1]))
          (fun _ _ => ⟨200, some ⟨some 15, some 10⟩⟩) []).2).2
      "Madrid" = 1 ∧
    (findById
      (fetch_and_store_weather_data [("Madrid", 40, -3)]
        (fun ts => ts.map (fun _ => [1])) (fun _ _ => ⟨200, some ⟨some 20, some 5⟩⟩)
        (fetch_and_store_weather_data [("Madrid", 40, -3)]
          (fun ts => ts.map (fun _ => [1]))
          (fun _ _ => ⟨200, some ⟨some 15, some 10⟩⟩) []).2).2
      "Madrid").map (fun r => r.metadata) = some ⟨some 20, some 5⟩ :=
  C7_reingest_overwrites [("Madrid", 40, -3)] [("Madrid", 40, -3)]
    (fun ts => ts.map (fun _ => [1])) (fun ts => ts.map (fun _ => [1]))
    (fun _ _ => ⟨200, some ⟨some 15, some 10⟩⟩)
    (fun _ _ => ⟨200, some ⟨some 20, some 5⟩⟩) []
    "Madrid" 40 (-3) 40 (-3) ⟨some 15, some 10⟩ ⟨some 20, some 5⟩ 0 0
    (by simp) (by simp) rfl rfl rfl rfl (by simp [countById])

/-- C10: a 200 response whose body lacks the current-weather object, or whose
object lacks both fields, still counts as a successful fetch: the fetcher
returns the (truthy, two-key) record with both fields null, so the ingestion
workflow includes the city in its result map and upserts it with null
temperature and wind-speed metadata instead of skipping it. -/
theorem C10_empty_body_ingested (cities : List (String × Rat × Rat))
    (encode : List String → List (List Rat))
    (fetch : Rat → Rat → WeatherResponse) (store : List VSRecord)
    (city : String) (lat lon : Rat)
    (hnd : (cities.map (fun c => c.1)).Nodup)
    (hmem : (city, lat, lon) ∈ cities)
    (h200 : (fetch lat lon).status_code = 200)
    (hbody : (fetch lat lon).current_weather = none ∨
      (fetch lat lon).current_weather = some ⟨none, none⟩) :
    get_current_weather city lat lon fetch = some ⟨none, none⟩ ∧
    List.lookup city
      (fetch_and_store_weather_data cities encode fetch store).1 =
      some ⟨none, none⟩ ∧
    ∃ r, findById
      (fetch_and_store_weather_data cities encode fetch store).2 city = some r ∧
      r.metadata = ⟨none, none⟩ := by
  have hw : get_current_weather city lat lon fetch = some ⟨none, none⟩ := by
    rcases hbody with hb | hb <;> simp [get_current_weather, h200, hb]
  obtain ⟨k, hk⟩ := List.getElem?_of_mem hmem
  have h := ingestLoop_success fetch (encode (cities.map (fun c => c.1)))
    0 cities store k city lat lon ⟨none, none⟩ hnd hk hw
  exact ⟨hw, h.1, ⟨_, h.2, rfl⟩⟩

/-- C10 witness: a 200 response with an empty body for Madrid still lands in
the result map and the store, with null metadata. -/
theorem C10_witness :
    get_current_weather "Madrid" 40 (-3) (fun _ _ => ⟨200, none⟩) =
      some ⟨none, none⟩ ∧
    List.lookup "Madrid"
      (fetch_and_store_weather_data [("Madrid", 40, -3)]
        (fun ts => ts.map (fun _ => [1])) (fun _ _ => ⟨200, none⟩) []).1 =
      some ⟨none, none⟩ ∧
    ∃ r, findById
      (fetch_and_store_weather_data [("Madrid", 40, -3)]
        (fun ts => ts.map (fun _ => [1])) (fun _ _ => ⟨200, none⟩) []).2
      "Madrid" = some r ∧ r.metadata = ⟨none, none⟩ :=
  C10_empty_body_ingested [("Madrid", 40, -3)] (fun ts => ts.map (fun _ => [1]))
    (fun _ _ => ⟨200, none⟩) [] "Madrid" 40 (-3) (by simp) (by simp) rfl
    (Or.inl rfl)

/-- C8: end to end — ingesting the one-city mapping Madrid ↦ (40.42, −3.70)
with a fetch returning temperature 15 and wind speed 10, then answering the
prompt "weather in madrid" with a store stub whose top-1 match is the stored
Madrid record at score 0.9, produces a string containing "Madrid", "15" and
"10". -/
theorem C8_end_to_end :
    (strHasSub
      (query_weather "weather in madrid" (fun ts => ts.map (fun _ => [1]))
        (fun _ =>
          (findById
            (fetch_and_store_weather_data
              [("Madrid", 4042 / 100, -370 / 100)]
              (fun ts => ts.map (fun _ => [1]))
              (fun _ _ => ⟨200, some ⟨some 15, some 10⟩⟩) []).2 "Madrid").elim
            [] (fun r => [⟨r.id, 9 / 10, r.metadata⟩])))
      "Madrid" &&
    strHasSub
      (query_weather "weather in madrid" (fun ts => ts.map (fun _ => [1]))
        (fun _ =>
          (findById
            (fetch_and_store_weather_data
              [("Madrid", 4042 / 100, -370 / 100)]
              (fun ts => ts.map (fun _ => [1]))
              (fun _ _ => ⟨200, some ⟨some 15, some 10⟩⟩) []).2 "Madrid").elim
            [] (fun r => [⟨r.id, 9 / 10, r.metadata⟩])))
      "15" &&
    strHasSub
      (query_weather "weather in madrid" (fun ts => ts.map (fun _ => [1]))
        (fun _ =>
          (findById
            (fetch_and_store_weather_data
              [("Madrid", 4042 / 100, -370 / 100)]
              (fun ts => ts.map (fun _ => [1]))
              (fun _ _ => ⟨200, some ⟨some 15, some 10⟩⟩) []).2 "Madrid").elim
            [] (fun r => [⟨r.id, 9 / 10, r.metadata⟩])))
      "10") = true := by
  have hst : (fetch_and_store_weather_data [("Madrid", 4042 / 100, -370 / 100)]
      (fun ts => ts.map (fun _ => [1]))
      (fun _ _ => ⟨200, some ⟨some 15, some 10⟩⟩) []).2 =
      [⟨"Madrid", [1], ⟨some 15, some 10⟩⟩] := by decide
  have hfind : findById (fetch_and_store_weather_data
      [("Madrid", 4042 / 100, -370 / 100)]
      (fun ts => ts.map (fun _ => [1]))
      (fun _ _ => ⟨200, some ⟨some 15, some 10⟩⟩) []).2 "Madrid" =
      some ⟨"Madrid", [1], ⟨some 15, some 10⟩⟩ := by
    rw [hst]
    rfl
  have hans : query_weather "weather in madrid" (fun ts => ts.map (fun _ => [1]))
      (fun _ =>
        (findById
          (fetch_and_store_weather_data [("Madrid", 4042 / 100, -370 / 100)]
            (fun ts => ts.map (fun _ => [1]))
            (fun _ _ => ⟨200, some ⟨some 15, some 10⟩⟩) []).2 "Madrid").elim
          [] (fun r => [⟨r.id, 9 / 10, r.metadata⟩])) =
      weatherReport "Madrid" ⟨some 15, some 10⟩ := by
    simp only [query_weather, hfind, Option.elim]
    rw [if_neg (by norm_num)]
  rw [hans]
  decide

end WeatherRag
